import Mathlib

/-!
Shallow embedding of the Secret Santa gift-exchange application.

The repository is an Angular front end plus a Flask backend persisting a
single JSON document.  The backend handlers themselves are not among the
collected sources, so the core gift/turn/registry operations are modelled
from the specification (each such definition carries a doc comment starting
with `Modelled from the spec:`).  All front-end logic (admin component,
mobile gift display, error-handling service, gift service, registration
component) is translated directly from the TypeScript sources.
-/

namespace SecretSanta

/-! Basic data model, mirroring `gift.service.ts` and `game.service.ts`. -/

/-- Game lifecycle phase, from `game_phase: 'registration' | 'active' | 'completed'`. -/
inductive GamePhase
  | registration
  | active
  | completed
deriving Repr, DecidableEq

/-- Gift record, from the `Gift` interface in
`src/secret-santa-frontend/src/app/services/gift.service.ts` lines 7-14. -/
structure Gift where
  id : String
  name : String
  steal_count : Nat
  is_locked : Bool
  current_owner : Option Nat
  steal_history : List Nat
deriving Repr, DecidableEq

/-- Participant record, from the `Participant` interface of
`participant.service.ts` (ids are integers in 1..100). -/
structure Participant where
  id : Nat
  name : String
  registration_timestamp : String
deriving Repr, DecidableEq

/-- Payload of `GET /api/game/current-turn`, from the `CurrentTurnResponse`
interface of `game.service.ts` as used by the admin component. -/
structure CurrentTurnResponse where
  current_turn : Option Nat
  game_phase : GamePhase
  turn_order : List Nat
  total_participants : Nat
deriving Repr, DecidableEq

/-- Server-side game state: `currentTurn`, `turnOrder`, `gamePhase` (spec §3). -/
structure GameState where
  currentTurn : Option Nat
  turnOrder : List Nat
  gamePhase : GamePhase
deriving Repr, DecidableEq

/-- Error taxonomy of the core (spec §7): validation, not-found, conflict and
transient store failures. -/
inductive ApiError
  | ValidationError (msg : String)
  | NotFoundError (msg : String)
  | ConflictError (msg : String)
  | TransientStoreError (msg : String)
deriving Repr, DecidableEq

/-! Name validation.  JavaScript's `String.prototype.trim` removes leading and
trailing whitespace; we model the common whitespace characters. -/

/-- Whitespace recognised by the modelled JavaScript `trim`. -/
def jsWhitespace (c : Char) : Bool :=
  c == ' ' || c == '\t' || c == '\n' || c == '\r'

/-- Model of JavaScript `name.trim()` on the underlying character list. -/
def trimName (s : String) : String :=
  String.mk (((s.data.dropWhile jsWhitespace).reverse.dropWhile jsWhitespace).reverse)

/-- Front-end gift-name validation, translated from `validateGiftName` in the
admin component (`src/unnamed/part_013` lines 1648-1669): empty or
whitespace-only is rejected, then trimmed length must be in 1..100. -/
def validateGiftName (name : String) : Bool :=
  if (trimName name).length == 0 then false
  else if (trimName name).length < 1 then false
  else if 100 < (trimName name).length then false
  else true

/-- Modelled from the spec: the backend name validation shared by `AddGift`
and `RenameGift` (spec §4.1, backend handler not under src/): the name must be
non-empty and at most 100 characters after trimming. -/
def coreValidName (name : String) : Bool :=
  decide (1 ≤ (trimName name).length) && decide ((trimName name).length ≤ 100)

/-! Core gift operations (spec-modelled: the Flask handlers are not among the
collected sources; messages follow the backend responses declared by the
`GiftService` tests in `src/unnamed/part_006`). -/

/-- Success message of a non-locking steal (declared in `src/unnamed/part_006`). -/
def stealSuccessMessage : String := "Gift stolen successfully"

/-- Success message of the steal that triggers the lock
(declared in `src/unnamed/part_006` line 173). -/
def stealLockedMessage : String :=
  "Gift stolen successfully - Gift is now locked after 3 steals"

/-- Conflict message for a steal attempt on a locked gift
(declared in `src/unnamed/part_006` line 146). -/
def conflictLockedMessage : String := "Gift cannot be stolen - it is locked"

/-- Modelled from the spec: `StealGift` on a single gift (spec §4.1, backend
handler not under src/).  A locked gift is refused with `ConflictError`;
otherwise the new owner is appended to the history, the counter is
incremented, and the lock is set atomically when the counter reaches 3. -/
def stealGiftCore (g : Gift) (newOwner : Nat) : Except ApiError (Gift × String) :=
  if g.is_locked then
    .error (.ConflictError conflictLockedMessage)
  else
    .ok ({ g with
            steal_count := g.steal_count + 1
            is_locked := decide (3 ≤ g.steal_count + 1)
            current_owner := some newOwner
            steal_history := g.steal_history ++ [newOwner] },
         if 3 ≤ g.steal_count + 1 then stealLockedMessage else stealSuccessMessage)

/-- Modelled from the spec: store-level `StealGift(giftId, newOwnerId)`
(spec §4.1, backend handler not under src/).  Returns the (possibly updated)
gift list together with the outcome; on any failure the list is returned
unchanged. -/
def stealGift (gifts : List Gift) (giftId : String) (newOwner : Nat) :
    List Gift × Except ApiError (Gift × String) :=
  match gifts.find? (fun g => g.id == giftId) with
  | none => (gifts, .error (.NotFoundError "Gift not found"))
  | some g =>
    match stealGiftCore g newOwner with
    | .error e => (gifts, .error e)
    | .ok (g', msg) =>
      (gifts.map (fun x => if x.id == giftId then g' else x), .ok (g', msg))

/-- Modelled from the spec: `ResetGiftSteals` (spec §4.1, backend handler not
under src/): sets `stealCount = 0` and `isLocked = false` but does not clear
`stealHistory` and does not change `currentOwner`. -/
def resetGiftStealsCore (g : Gift) : Gift :=
  { g with steal_count := 0, is_locked := false }

/-- Modelled from the spec: `RenameGift` on a single gift (spec §4.1, backend
handler not under src/): validates the new name exactly as `AddGift` and
preserves every other field. -/
def renameGiftCore (g : Gift) (newName : String) : Except ApiError Gift :=
  if coreValidName newName then .ok { g with name := newName }
  else .error (.ValidationError "Gift name must be between 1 and 100 characters")

/-- Modelled from the spec: the gift produced by `AddGift(name, ownerId)`
(spec §4.1): `stealCount = 0`, `isLocked = false`, empty history. -/
def mkGift (id nm : String) (owner : Option Nat) : Gift :=
  ⟨id, nm, 0, false, owner, []⟩

/-! Per-gift state machine (spec §4.1): the operations that can touch an
existing gift are steal, reset-steals and rename. -/

/-- Operation on a single existing gift. -/
inductive GiftOp
  | steal (newOwner : Nat)
  | reset
  | rename (newName : String)
deriving Repr, DecidableEq

/-- Result state of running one operation on a gift; a failed operation
leaves the gift unchanged (spec §7: no partial mutation on error). -/
def applyGiftOp (g : Gift) : GiftOp → Gift
  | .steal o =>
    match stealGiftCore g o with
    | .ok (g', _) => g'
    | .error _ => g
  | .reset => resetGiftStealsCore g
  | .rename n =>
    match renameGiftCore g n with
    | .ok g' => g'
    | .error _ => g

/-- Gift states reachable from creation by any sequence of steal, reset and
rename operations. -/
inductive GiftReachable : Gift → Prop
  | init (id nm : String) (owner : Option Nat) (h : coreValidName nm = true) :
      GiftReachable (mkGift id nm owner)
  | step {g : Gift} (op : GiftOp) : GiftReachable g → GiftReachable (applyGiftOp g op)

/-- Gift states reachable from creation without ever using the admin
`ResetGiftSteals` override. -/
inductive GiftReachableNR : Gift → Prop
  | init (id nm : String) (owner : Option Nat) (h : coreValidName nm = true) :
      GiftReachableNR (mkGift id nm owner)
  | step {g : Gift} (op : GiftOp) (hop : op ≠ GiftOp.reset) :
      GiftReachableNR g → GiftReachableNR (applyGiftOp g op)

/-- Combined per-gift invariant: the lock flag tracks "steal count at least
3" and the counter never exceeds the history length. -/
def GiftCoreInv (g : Gift) : Prop :=
  g.is_locked = decide (3 ≤ g.steal_count) ∧
  g.steal_count ≤ g.steal_history.length

/-! Participant registry (spec §4.3; the Flask handler is not under src/). -/

/-- Modelled from the spec: the lowest unused integer id in [1,100]
(spec §4.3, registry backend not under src/). -/
def lowestUnusedId (ps : List Participant) : Option Nat :=
  (List.range' 1 100).find? (fun i => !(ps.any (fun p => p.id == i)))

/-- Modelled from the spec: `Register(name)` (spec §4.3, registry backend not
under src/): fails with `ConflictError` when 100 participants already exist,
with `ValidationError` when the name is empty after trimming, and otherwise
assigns the lowest unused id in [1,100].  The store is returned unchanged on
failure. -/
def registerParticipant (ps : List Participant) (nm : String) :
    List Participant × Except ApiError Participant :=
  if 100 ≤ ps.length then
    (ps, .error (.ConflictError "Registration limit reached"))
  else if (trimName nm).length == 0 then
    (ps, .error (.ValidationError "Name is required"))
  else
    match lowestUnusedId ps with
    | some i => (ps ++ [⟨i, nm, ""⟩], .ok ⟨i, nm, ""⟩)
    | none => (ps, .error (.ConflictError "Registration limit reached"))

/-- Runs a sequence of registrations, failing as a whole if any single
registration fails. -/
def registerAll (ps : List Participant) : List String → Option (List Participant)
  | [] => some ps
  | nm :: rest =>
    match registerParticipant ps nm with
    | (ps', .ok _) => registerAll ps' rest
    | (_, .error _) => none

/-! Turn sequencer (spec §4.2; the Flask handler is not under src/). -/

/-- Modelled from the spec: `PreviousTurn()` (spec §4.2, backend handler not
under src/).  From `completed` it restores `currentTurn` to the last entry of
`turnOrder` and re-enters `active`; while `active` at index > 0 it steps
`currentTurn` to the prior entry; otherwise it fails with `ConflictError`. -/
def previousTurn (gs : GameState) : Except ApiError GameState :=
  match gs.gamePhase with
  | .registration => .error (.ConflictError "Game has not started")
  | .completed =>
    match gs.turnOrder.getLast? with
    | some t => .ok { gs with gamePhase := .active, currentTurn := some t }
    | none => .error (.ConflictError "No turn order")
  | .active =>
    match gs.currentTurn with
    | none => .error (.ConflictError "No current turn")
    | some t =>
      match gs.turnOrder.findIdx? (fun x => x == t) with
      | some (i + 1) => .ok { gs with currentTurn := gs.turnOrder.get? i }
      | _ => .error (.ConflictError "Already at the first turn")

/-- View of the game state served to the front end
(`GetCurrentTurn`, spec §4.2). -/
def viewOfState (gs : GameState) (total : Nat) : CurrentTurnResponse :=
  ⟨gs.currentTurn, gs.gamePhase, gs.turnOrder, total⟩

/-! Admin component (`src/unnamed/part_013`), translated from the TypeScript.
`this.currentTurn` is `CurrentTurnResponse | null`, modelled as an `Option`. -/

/-- JavaScript truthiness of `this.currentTurn?.current_turn`: the value when
the component state and the turn are present and the id is non-zero (`0` is
falsy in JavaScript), `none` otherwise. -/
def currentTurnTruthy (ct : Option CurrentTurnResponse) : Option Nat :=
  match ct with
  | none => none
  | some c =>
    match c.current_turn with
    | none => none
    | some t => if t == 0 then none else some t

/-- Translated from `canStealGift` (`src/unnamed/part_013` lines 1465-1467):
`!gift.is_locked && this.currentTurn?.current_turn !== null`.  When
`this.currentTurn` is absent the optional chain yields `undefined`, which is
`!== null`, hence the second conjunct is true in that case. -/
def canStealGift (ct : Option CurrentTurnResponse) (g : Gift) : Bool :=
  !g.is_locked &&
    (match ct with
     | none => true
     | some c => c.current_turn != none)

/-- Translated from `onStealGift` (`src/unnamed/part_013` lines 1258-1291):
returns the steal request `(giftId, new_owner_id)` issued to the
`GiftService`, or `none` when the guard
`gift.is_locked || !this.currentTurn?.current_turn` aborts the handler. -/
def onStealGiftRequest (ct : Option CurrentTurnResponse) (g : Gift) :
    Option (String × Nat) :=
  if g.is_locked then none
  else
    match currentTurnTruthy ct with
    | none => none
    | some t => some (g.id, t)

/-- Translated from `getGiftTooltip` (`src/unnamed/part_013` lines 1472-1483). -/
def getGiftTooltip (ct : Option CurrentTurnResponse) (g : Gift) : String :=
  if g.is_locked then "This gift is locked and cannot be stolen anymore"
  else
    match currentTurnTruthy ct with
    | none => "No active turn - cannot steal gifts"
    | some t =>
      if g.current_owner == some t then "You already own this gift"
      else
        "Click to steal this gift (" ++ toString ((3 : Int) - (g.steal_count : Int)) ++
          " steals remaining before lock)"

/-- Translated from the `canGoToPreviousTurn` getter
(`src/unnamed/part_013` lines 1546-1564).  JavaScript `indexOf` returns `-1`
when the element is absent, so `currentIndex > 0` is false in that case;
this is modelled with `findIdx?`. -/
def canGoToPreviousTurn (ct : Option CurrentTurnResponse) : Bool :=
  match ct with
  | none => false
  | some c =>
    if c.turn_order.length == 0 then false
    else if c.game_phase == GamePhase.completed then true
    else
      match c.current_turn with
      | none => false
      | some t =>
        match c.turn_order.findIdx? (fun x => x == t) with
        | some i => decide (0 < i)
        | none => false

/-! Registration component (`src/unnamed/part_010`). -/

/-- Translated from the `isAtCapacity` getter
(`src/unnamed/part_010` lines 70-74): `this.participantCount >= 100`. -/
def isAtCapacity (participantCount : Nat) : Bool :=
  decide (100 ≤ participantCount)

/-- Translated from the guard of `onSubmit`
(`src/unnamed/part_010` lines 99-102): the registration request is only
issued when the form is valid, no submission is in flight, and the registry
is not at capacity. -/
def onSubmitProceeds (formInvalid isSubmitting : Bool) (participantCount : Nat) : Bool :=
  !(formInvalid || isSubmitting || isAtCapacity participantCount)

/-! Error handling service
(`src/secret-santa-frontend/src/app/services/error-handling.service.ts`). -/

/-- Code attached to a processed error: the TypeScript field is
`string | number`. -/
inductive ErrCode
  | str (s : String)
  | num (n : Nat)
deriving Repr, DecidableEq

/-- Translated from the `ErrorInfo` interface. -/
structure ErrorInfo where
  message : String
  code : Option ErrCode
  retryable : Bool
  userFriendly : Bool
deriving Repr, DecidableEq

/-- Shape of an Angular `HttpErrorResponse` as inspected by the service:
whether `error.error` is a client-side `ErrorEvent` (with its message),
whether the error is a timeout, the HTTP status, and the optional
`error.error?.error` server message. -/
structure HttpErrorResponse where
  isErrorEvent : Bool
  eventMessage : String
  isTimeout : Bool
  status : Nat
  serverError : Option String
deriving Repr, DecidableEq

/-- JavaScript `error.error?.error || fallback`: an absent or empty (falsy)
server message falls back to the default. -/
def jsOrElse (o : Option String) (fallback : String) : String :=
  match o with
  | some s => if s == "" then fallback else s
  | none => fallback

/-- Translated from `processHttpError`
(`error-handling.service.ts` lines 24-122), including the status switch at
lines 49-113: statuses 0, 409, 429, 500 and 503 are marked retryable, 400 and
404 are not, and the default case is retryable exactly for statuses ≥ 500. -/
def processHttpError (e : HttpErrorResponse) (context : Option String) : ErrorInfo :=
  let info : ErrorInfo :=
    if e.isErrorEvent then
      ⟨"Network error: " ++ e.eventMessage, some (.str "NETWORK_ERROR"), true, true⟩
    else if e.isTimeout then
      ⟨"Request timed out. Please check your connection and try again.",
        some (.str "TIMEOUT"), true, true⟩
    else if e.status == 0 then
      ⟨"Unable to connect to server. Please check your connection.",
        some (.str "CONNECTION_ERROR"), true, true⟩
    else if e.status == 400 then
      ⟨jsOrElse e.serverError "Invalid request. Please check your input.",
        some (.str "BAD_REQUEST"), false, true⟩
    else if e.status == 404 then
      ⟨jsOrElse e.serverError "Resource not found.",
        some (.str "NOT_FOUND"), false, true⟩
    else if e.status == 409 then
      ⟨jsOrElse e.serverError "Conflict occurred. Please try again.",
        some (.str "CONFLICT"), true, true⟩
    else if e.status == 429 then
      ⟨"Too many requests. Please wait a moment and try again.",
        some (.str "RATE_LIMITED"), true, true⟩
    else if e.status == 500 then
      ⟨"Server error. Please try again later.",
        some (.str "SERVER_ERROR"), true, true⟩
    else if e.status == 503 then
      ⟨jsOrElse e.serverError "Service temporarily unavailable. Please try again.",
        some (.str "SERVICE_UNAVAILABLE"), true, true⟩
    else
      ⟨jsOrElse e.serverError ("Error Code: " ++ toString e.status),
        some (.num e.status), decide (500 ≤ e.status), true⟩
  match context with
  | some c => { info with message := c ++ ": " ++ info.message }
  | none => info

/-- Retry cap of the mobile gift display (`src/unnamed/part_009` line 28). -/
def MAX_RETRY_ATTEMPTS : Nat := 5

/-- Translated from the retry-scheduling condition of `handleLoadError`
(`src/unnamed/part_009` line 276): a retry is scheduled whenever the
processed error is retryable, the attempt cap is not reached, and the device
is online. -/
def schedulesRetry (info : ErrorInfo) (retryCount : Nat) (isOnline : Bool) : Bool :=
  info.retryable && decide (retryCount < MAX_RETRY_ATTEMPTS) && isOnline

/-- Translated from `stealGift` in `gift.service.ts` lines 86-93: the request
pipes `retry(1)`, and rxjs `retry` resubscribes on any error regardless of
its category, so the service retries every failed steal once. -/
def giftServiceRetriesSteal (_e : HttpErrorResponse) : Bool := true

/-! Mobile gift display (`src/unnamed/part_009`). -/

/-- Gift status shown by the mobile display, translated from `getGiftStatus`
(`src/unnamed/part_009` lines 529-535). -/
inductive GiftStatus
  | fresh
  | stolen_once
  | stolen_twice
  | locked
deriving Repr, DecidableEq

/-- Translated from `getGiftStatus` (`src/unnamed/part_009` lines 529-535). -/
def getGiftStatus (g : Gift) : GiftStatus :=
  if g.steal_count == 0 then .fresh
  else if g.steal_count == 1 then .stolen_once
  else if g.steal_count == 2 then .stolen_twice
  else .locked

/-- Projection hashed by `generateGiftsHash`
(`src/unnamed/part_009` lines 243-251): id, name, steal count, lock flag and
current owner.  `JSON.stringify` is injective on this data, so the hash
string is modelled by the projection list itself. -/
def giftProj (g : Gift) : String × String × Nat × Bool × Option Nat :=
  (g.id, g.name, g.steal_count, g.is_locked, g.current_owner)

/-- Model of the `lastGiftsHash` string / `generateGiftsHash` result. -/
def giftsHash (gs : List Gift) : List (String × String × Nat × Bool × Option Nat) :=
  gs.map giftProj

/-- Visibility filter applied by `loadGifts`
(`src/unnamed/part_009` lines 151 and 161):
`gift.steal_count < 3 && !gift.is_locked`. -/
def visibleGiftFilter (gs : List Gift) : List Gift :=
  gs.filter (fun g => decide (g.steal_count < 3) && !g.is_locked)

/-- Mutable state of the mobile display relevant to `loadGifts`: the shown
gifts, the cached hash (`none` models the initial empty string, which is not
the stringification of any list), and the exploding-gift id set. -/
structure MobileDisplayState where
  gifts : List Gift
  lastGiftsHash : Option (List (String × String × Nat × Bool × Option Nat))
  explodingGiftIds : List String
deriving Repr

/-- Translated from the success handler of `loadGifts`
(`src/unnamed/part_009` lines 120-186), observed after any pending explosion
animation completes.  When newly locked, previously visible gifts are
detected, the 600 ms timeout ends with the visible filter applied and the
exploding ids removed again; otherwise the filtered list replaces the shown
gifts unless its hash matches the cached one. -/
def loadGiftsStep (st : MobileDisplayState) (allGifts : List Gift) : MobileDisplayState :=
  let lockedGifts := allGifts.filter (fun g => decide (3 ≤ g.steal_count) || g.is_locked)
  let newlyLocked := lockedGifts.filter (fun g =>
    (st.gifts.any (fun x => x.id == g.id)) && !(st.explodingGiftIds.contains g.id))
  let visibleGifts := visibleGiftFilter allGifts
  if newlyLocked.isEmpty then
    if some (giftsHash visibleGifts) == st.lastGiftsHash then st
    else { st with gifts := visibleGifts, lastGiftsHash := some (giftsHash visibleGifts) }
  else
    { st with gifts := visibleGifts, lastGiftsHash := some (giftsHash visibleGifts) }

/-! Concrete records used to instantiate the theorems, taken from the mock
data of the admin-component tests (`src/unnamed/part_013` lines 32-57) and
the scenarios of spec §8. -/

/-- First mock gift of the admin tests: never stolen, unowned. -/
def gift1Example : Gift := ⟨"gift1", "Test Gift 1", 0, false, none, []⟩

/-- Second mock gift of the admin tests: stolen twice, one steal from lock. -/
def gift2Example : Gift := ⟨"gift2", "Test Gift 2", 2, false, some 2, [1, 3]⟩

/-- Third mock gift of the admin tests: stolen three times and locked. -/
def lockedGiftExample : Gift := ⟨"gift3", "Locked Gift", 3, true, some 3, [1, 2, 4]⟩

/-- Mock current-turn payload of the admin tests: participant 1 is up,
order [1, 2, 3]. -/
def mockCurrentTurnExample : CurrentTurnResponse := ⟨some 1, .active, [1, 2, 3], 3⟩

/-- The first mock gift, owned by the participant whose turn it is. -/
def ownedGiftExample : Gift := { gift1Example with current_owner := some 1 }

/-- An HTTP 409 response as produced by a steal on a locked gift. -/
def conflict409Example : HttpErrorResponse :=
  ⟨false, "", false, 409, some "Gift cannot be stolen - it is locked"⟩

/-- Gift of concrete scenario A (spec §8): "Lego Set" created for
participant 1. -/
def legoGift : Gift := mkGift "lego" "Lego Set" (some 1)

/-- The Lego Set after one steal (by participant 2) followed by the admin
reset override. -/
def legoStolenReset : Gift :=
  applyGiftOp (applyGiftOp legoGift (GiftOp.steal 2)) GiftOp.reset

/-- The Lego Set after the three steals of concrete scenario A (spec §8):
stolen by 2, then 3, then 1, which locks it. -/
def legoStolen3 : Gift :=
  applyGiftOp (applyGiftOp (applyGiftOp legoGift (GiftOp.steal 2))
    (GiftOp.steal 3)) (GiftOp.steal 1)

/-- A 100-character gift name (scenario D of spec §8). -/
def hundredCharName : String := String.mk (List.replicate 100 'A')

/-- A 101-character gift name (scenario D of spec §8). -/
def hundredOneCharName : String := String.mk (List.replicate 101 'A')

/-- An active game state with the middle participant up. -/
def activeTurnState : GameState := ⟨some 2, [1, 2, 3], GamePhase.active⟩

/-- A completed game state over the order [1, 2, 3]. -/
def completedTurnState : GameState := ⟨none, [1, 2, 3], GamePhase.completed⟩

/-- A mobile-display state showing two gifts with a consistent cached hash. -/
def mobileStateExample : MobileDisplayState :=
  ⟨[gift1Example, gift2Example], some (giftsHash [gift1Example, gift2Example]), []⟩

end SecretSanta

namespace SecretSanta

/-- Helper: a truthy `this.currentTurn?.current_turn` means the component had
a current-turn payload whose turn holder it returns. -/
theorem currentTurnTruthy_eq_some {ct : Option CurrentTurnResponse} {t : Nat}
    (h : currentTurnTruthy ct = some t) :
    ∃ c, ct = some c ∧ c.current_turn = some t := by
  cases ct with
  | none => simp [currentTurnTruthy] at h
  | some c =>
    refine ⟨c, rfl, ?_⟩
    simp only [currentTurnTruthy] at h
    cases hturn : c.current_turn with
    | none => rw [hturn] at h; simp at h
    | some u =>
      rw [hturn] at h
      by_cases hu : u = 0
      · subst hu; simp at h
      · simp [hu] at h
        exact congrArg some h

/-- C2: for every gift whose locked flag is true, a steal attempt fails with
a `ConflictError` and the stored gift list — hence every field of that gift
(steal count, locked flag, current owner, steal history, name) — is left
unchanged. -/
theorem C2_locked_steal_is_conflict_noop (gifts : List Gift) (giftId : String)
    (newOwner : Nat) (g : Gift)
    (hfind : gifts.find? (fun x => x.id == giftId) = some g)
    (hlock : g.is_locked = true) :
    stealGift gifts giftId newOwner =
      (gifts, Except.error (ApiError.ConflictError conflictLockedMessage)) := by
  simp [stealGift, stealGiftCore, hfind, hlock]

/-- C2 witness: stealing the locked mock gift from a one-gift store is a
conflict no-op. -/
theorem C2_locked_steal_is_conflict_noop_witness :
    [lockedGiftExample].find? (fun x => x.id == "gift3") = some lockedGiftExample ∧
    lockedGiftExample.is_locked = true ∧
    stealGift [lockedGiftExample] "gift3" 1 =
      ([lockedGiftExample], Except.error (ApiError.ConflictError conflictLockedMessage)) :=
  ⟨by decide, by decide,
    C2_locked_steal_is_conflict_noop [lockedGiftExample] "gift3" 1 lockedGiftExample
      (by decide) (by decide)⟩

/-- C3: a successful steal of an unlocked gift with steal count exactly 2
yields steal count 3 and a set lock in the same step, and its result message
(the lock-triggering message) is distinct from the message of a non-locking
steal. -/
theorem C3_third_steal_locks_with_distinct_message (g g' : Gift) (o o' : Nat)
    (h2 : g.steal_count = 2) (hl : g.is_locked = false)
    (h2' : g'.steal_count < 2) (hl' : g'.is_locked = false) :
    stealGiftCore g o =
      Except.ok (⟨g.id, g.name, 3, true, some o, g.steal_history ++ [o]⟩,
        stealLockedMessage) ∧
    (∃ u, stealGiftCore g' o' = Except.ok (u, stealSuccessMessage)) ∧
    stealLockedMessage ≠ stealSuccessMessage := by
  refine ⟨?_, ?_, by decide⟩
  · simp [stealGiftCore, hl, h2]
  · have hn : ¬ (3 ≤ g'.steal_count + 1) := by omega
    exact ⟨⟨g'.id, g'.name, g'.steal_count + 1, false, some o', g'.steal_history ++ [o']⟩,
      by simp [stealGiftCore, hl', hn]⟩

/-- C3 witness: stealing the twice-stolen mock gift locks it with the
distinct message, while stealing the fresh mock gift reports a plain
success. -/
theorem C3_third_steal_locks_with_distinct_message_witness :
    gift2Example.steal_count = 2 ∧ gift1Example.steal_count < 2 ∧
    (stealGiftCore gift2Example 1 =
      Except.ok (⟨gift2Example.id, gift2Example.name, 3, true, some 1,
          gift2Example.steal_history ++ [1]⟩,
        stealLockedMessage) ∧
     (∃ u, stealGiftCore gift1Example 1 = Except.ok (u, stealSuccessMessage)) ∧
     stealLockedMessage ≠ stealSuccessMessage) :=
  ⟨by decide, by decide,
    C3_third_steal_locks_with_distinct_message gift2Example gift1Example 1 1
      (by decide) (by decide) (by decide) (by decide)⟩

/-- C9: whenever the admin component issues a steal request, the gift was
not locked, a current-turn payload with a non-null turn holder was present,
and the request carries exactly that turn holder as the new owner. -/
theorem C9_admin_steal_requests_guarded (ct : Option CurrentTurnResponse)
    (g : Gift) (req : String × Nat)
    (h : onStealGiftRequest ct g = some req) :
    g.is_locked = false ∧
    ∃ c t, ct = some c ∧ c.current_turn = some t ∧ req = (g.id, t) := by
  cases hlock : g.is_locked with
  | true => simp [onStealGiftRequest, hlock] at h
  | false =>
    simp only [onStealGiftRequest, hlock, Bool.false_eq_true, if_false] at h
    cases hct : currentTurnTruthy ct with
    | none => rw [hct] at h; simp at h
    | some t =>
      rw [hct] at h
      simp only [Option.some.injEq] at h
      obtain ⟨c, hc, hturn⟩ := currentTurnTruthy_eq_some hct
      exact ⟨rfl, c, t, hc, hturn, h.symm⟩

/-- C9 witness: with the mock turn payload (turn holder 1) and the fresh
unlocked mock gift, the issued request is for that gift with new owner 1. -/
theorem C9_admin_steal_requests_guarded_witness :
    onStealGiftRequest (some mockCurrentTurnExample) gift1Example = some ("gift1", 1) ∧
    (gift1Example.is_locked = false ∧
      ∃ c t, some mockCurrentTurnExample = some c ∧ c.current_turn = some t ∧
        (("gift1", 1) : String × Nat) = (gift1Example.id, t)) :=
  ⟨by decide,
    C9_admin_steal_requests_guarded (some mockCurrentTurnExample) gift1Example
      ("gift1", 1) (by decide)⟩

/-- C4 counterexample: an HTTP 409 conflict (a steal on a locked gift) is
classified as retryable by `processHttpError`, the mobile display schedules
an automatic retry for it, and the gift service's steal call retries it at
the HTTP layer — contradicting the claim that a `ConflictError` is never
automatically retried. -/
theorem C4_conflict_is_retried_counterexample :
    (processHttpError conflict409Example none).retryable = true ∧
    schedulesRetry (processHttpError conflict409Example none) 0 true = true ∧
    giftServiceRetriesSteal conflict409Example = true := by
  refine ⟨by decide, ?_, by decide⟩
  decide

/-- C4 amended: for server responses (no client-side network event, no
timeout) the error handler marks exactly the statuses 0, 409, 429 and ≥ 500
as retryable; in particular 409 ConflictError responses are retryable while
400 ValidationError and 404 NotFoundError responses are not, so retryability
is not limited to transient store failures. -/
theorem C4_retryable_statuses (e : HttpErrorResponse) (ctx : Option String)
    (hev : e.isErrorEvent = false) (hto : e.isTimeout = false) :
    (processHttpError e ctx).retryable =
      decide (e.status = 0 ∨ e.status = 409 ∨ e.status = 429 ∨ 500 ≤ e.status) := by
  have hbase : ∀ info : ErrorInfo,
      (match ctx with
        | some c => { info with message := c ++ ": " ++ info.message }
        | none => info).retryable = info.retryable := by
    intro info; cases ctx <;> rfl
  unfold processHttpError
  rw [hbase]
  simp only [hev, hto, Bool.false_eq_true, if_false]
  by_cases h0 : e.status = 0
  · simp [h0]
  by_cases h400 : e.status = 400
  · simp [h0, h400]
  by_cases h404 : e.status = 404
  · simp [h0, h400, h404]
  by_cases h409 : e.status = 409
  · simp [h0, h400, h404, h409]
  by_cases h429 : e.status = 429
  · simp [h0, h400, h404, h409, h429]
  by_cases h500 : e.status = 500
  · simp [h0, h400, h404, h409, h429, h500]
  by_cases h503 : e.status = 503
  · simp [h0, h400, h404, h409, h429, h500, h503]
  · rw [if_neg (by simp [h0]), if_neg (by simp [h400]), if_neg (by simp [h404]),
      if_neg (by simp [h409]), if_neg (by simp [h429]), if_neg (by simp [h500]),
      if_neg (by simp [h503])]
    show decide (500 ≤ e.status) = _
    simp only [decide_eq_decide]
    constructor
    · intro h; exact Or.inr (Or.inr (Or.inr h))
    · rintro (h | h | h | h) <;> omega

/-- C4 witness: the amended statement evaluated on the concrete 409
response. -/
theorem C4_retryable_statuses_witness :
    conflict409Example.isErrorEvent = false ∧ conflict409Example.isTimeout = false ∧
    (processHttpError conflict409Example none).retryable =
      decide (conflict409Example.status = 0 ∨ conflict409Example.status = 409 ∨
        conflict409Example.status = 429 ∨ 500 ≤ conflict409Example.status) :=
  ⟨rfl, rfl, C4_retryable_statuses conflict409Example none rfl rfl⟩

/-- C6 counterexample: for an unlocked gift already owned by the acting
participant (the turn holder), the admin component still reports the gift as
stealable and its click handler still issues the steal request — the
presentation layer does not disable the same-owner steal action. -/
theorem C6_same_owner_action_enabled_counterexample :
    ownedGiftExample.current_owner = some 1 ∧
    mockCurrentTurnExample.current_turn = some 1 ∧
    canStealGift (some mockCurrentTurnExample) ownedGiftExample = true ∧
    onStealGiftRequest (some mockCurrentTurnExample) ownedGiftExample =
      some ("gift1", 1) := by
  refine ⟨rfl, rfl, by decide, by decide⟩

/-- C6 amended: the core does not reject a same-owner steal (an unlocked
gift owned by the acting participant is stolen successfully), and the
presentation layer does not prevent it either: `canStealGift` stays true and
`onStealGift` issues the request for a gift the turn holder already owns —
the only same-owner distinction is the tooltip text. -/
theorem C6_same_owner_steal_permitted (c : CurrentTurnResponse) (g : Gift) (t : Nat)
    (hl : g.is_locked = false) (hturn : c.current_turn = some t) (ht0 : t ≠ 0)
    (hown : g.current_owner = some t) :
    (∃ g' msg, stealGiftCore g t = Except.ok (g', msg) ∧ g'.current_owner = some t) ∧
    canStealGift (some c) g = true ∧
    onStealGiftRequest (some c) g = some (g.id, t) ∧
    getGiftTooltip (some c) g = "You already own this gift" := by
  refine ⟨?_, ?_, ?_, ?_⟩
  · exact ⟨⟨g.id, g.name, g.steal_count + 1, decide (3 ≤ g.steal_count + 1), some t,
      g.steal_history ++ [t]⟩,
      if 3 ≤ g.steal_count + 1 then stealLockedMessage else stealSuccessMessage,
      by simp [stealGiftCore, hl], rfl⟩
  · simp [canStealGift, hl, hturn]
  · simp [onStealGiftRequest, currentTurnTruthy, hl, hturn, ht0]
  · simp [getGiftTooltip, currentTurnTruthy, hl, hturn, ht0, hown]

/-- C6 witness: the amended statement evaluated on the owned mock gift with
turn holder 1. -/
theorem C6_same_owner_steal_permitted_witness :
    ownedGiftExample.is_locked = false ∧ ownedGiftExample.current_owner = some 1 ∧
    ((∃ g' msg, stealGiftCore ownedGiftExample 1 = Except.ok (g', msg) ∧
        g'.current_owner = some 1) ∧
      canStealGift (some mockCurrentTurnExample) ownedGiftExample = true ∧
      onStealGiftRequest (some mockCurrentTurnExample) ownedGiftExample =
        some (ownedGiftExample.id, 1) ∧
      getGiftTooltip (some mockCurrentTurnExample) ownedGiftExample =
        "You already own this gift") :=
  ⟨rfl, rfl,
    C6_same_owner_steal_permitted mockCurrentTurnExample ownedGiftExample 1
      rfl rfl (by decide) rfl⟩

/-- C7: the valid gift names are exactly the strings whose trimmed length is
between 1 and 100; the front-end validation agrees with the core rule, and
`RenameGift` succeeds on a valid name (changing only the name) while an
empty, whitespace-only or over-long name fails with a `ValidationError`. -/
theorem C7_rename_name_validation (g : Gift) (nm : String) :
    (validateGiftName nm = true ↔
      1 ≤ (trimName nm).length ∧ (trimName nm).length ≤ 100) ∧
    validateGiftName nm = coreValidName nm ∧
    (coreValidName nm = true → renameGiftCore g nm = Except.ok { g with name := nm }) ∧
    (coreValidName nm = false → renameGiftCore g nm =
      Except.error (ApiError.ValidationError
        "Gift name must be between 1 and 100 characters")) := by
  have key : validateGiftName nm = coreValidName nm := by
    unfold validateGiftName coreValidName
    by_cases h0 : (trimName nm).length = 0
    · simp [h0]
    · have h1 : ¬ (trimName nm).length < 1 := by omega
      by_cases h100 : 100 < (trimName nm).length
      · have hc : ¬ (trimName nm).length ≤ 100 := by omega
        simp [h0, h1, h100, hc]
      · have ha : 1 ≤ (trimName nm).length := by omega
        have hc : (trimName nm).length ≤ 100 := by omega
        simp [h0, h1, h100, ha, hc]
  refine ⟨?_, key, ?_, ?_⟩
  · rw [key]
    simp [coreValidName]
  · intro h
    simp [renameGiftCore, h]
  · intro h
    simp [renameGiftCore, h]

/-- C7 witness: the 100-character name is accepted and renames the mock
gift; the whitespace-only and 101-character names are rejected with a
`ValidationError`. -/
theorem C7_rename_name_validation_witness :
    coreValidName hundredCharName = true ∧
    coreValidName "   " = false ∧
    coreValidName hundredOneCharName = false ∧
    renameGiftCore gift1Example hundredCharName =
      Except.ok { gift1Example with name := hundredCharName } ∧
    renameGiftCore gift1Example "   " =
      Except.error (ApiError.ValidationError
        "Gift name must be between 1 and 100 characters") ∧
    renameGiftCore gift1Example hundredOneCharName =
      Except.error (ApiError.ValidationError
        "Gift name must be between 1 and 100 characters") :=
  ⟨by decide, by decide, by decide,
    (C7_rename_name_validation gift1Example hundredCharName).2.2.1 (by decide),
    (C7_rename_name_validation gift1Example "   ").2.2.2 (by decide),
    (C7_rename_name_validation gift1Example hundredOneCharName).2.2.2 (by decide)⟩

/-- C10: once a gifts response is processed by the mobile display (including
the explosion-animation path), the shown gifts are, up to the hashed
projection, exactly the response gifts with steal count below 3 and an unset
lock; in particular no locked gift remains in the displayed list, and the
cached hash again matches the displayed list.  The hypothesis is the
component invariant that the cached hash is the initial empty one or the
hash of the currently shown list. -/
theorem C10_mobile_display_filters_locked (st : MobileDisplayState)
    (allGifts : List Gift)
    (hinv : st.lastGiftsHash = none ∨ st.lastGiftsHash = some (giftsHash st.gifts)) :
    giftsHash (loadGiftsStep st allGifts).gifts =
      giftsHash (visibleGiftFilter allGifts) ∧
    (∀ g ∈ (loadGiftsStep st allGifts).gifts,
      g.steal_count < 3 ∧ g.is_locked = false) ∧
    (loadGiftsStep st allGifts).lastGiftsHash =
      some (giftsHash (loadGiftsStep st allGifts).gifts) := by
  have hmain : giftsHash (loadGiftsStep st allGifts).gifts =
      giftsHash (visibleGiftFilter allGifts) ∧
      (loadGiftsStep st allGifts).lastGiftsHash =
        some (giftsHash (loadGiftsStep st allGifts).gifts) := by
    simp only [loadGiftsStep]
    split_ifs with hempty hhash
    · have heq : some (giftsHash (visibleGiftFilter allGifts)) = st.lastGiftsHash :=
        eq_of_beq hhash
      rcases hinv with hnone | hsome
      · rw [hnone] at heq; exact absurd heq (by simp)
      · rw [hsome] at heq
        have := Option.some.inj heq
        exact ⟨this.symm, by rw [hsome]⟩
    · exact ⟨rfl, rfl⟩
    · exact ⟨rfl, rfl⟩
  refine ⟨hmain.1, ?_, hmain.2⟩
  intro g hg
  have hproj : giftProj g ∈ giftsHash (visibleGiftFilter allGifts) := by
    rw [← hmain.1]
    exact List.mem_map_of_mem giftProj hg
  obtain ⟨g', hg', hpe⟩ := List.mem_map.mp hproj
  have hvis := List.mem_filter.mp hg'
  simp only [giftProj, Prod.mk.injEq] at hpe
  obtain ⟨-, -, hcount, hlock, -⟩ := hpe
  have h2 := hvis.2
  simp only [Bool.and_eq_true, decide_eq_true_eq, Bool.not_eq_true'] at h2
  exact ⟨hcount ▸ h2.1, hlock ▸ h2.2⟩

/-- C10 witness: refreshing a two-gift display with a response containing a
locked gift leaves exactly the two unlocked gifts shown. -/
theorem C10_mobile_display_filters_locked_witness :
    mobileStateExample.lastGiftsHash = some (giftsHash mobileStateExample.gifts) ∧
    (giftsHash (loadGiftsStep mobileStateExample
        [gift1Example, gift2Example, lockedGiftExample]).gifts =
      giftsHash (visibleGiftFilter [gift1Example, gift2Example, lockedGiftExample]) ∧
    (∀ g ∈ (loadGiftsStep mobileStateExample
        [gift1Example, gift2Example, lockedGiftExample]).gifts,
      g.steal_count < 3 ∧ g.is_locked = false) ∧
    (loadGiftsStep mobileStateExample
        [gift1Example, gift2Example, lockedGiftExample]).lastGiftsHash =
      some (giftsHash (loadGiftsStep mobileStateExample
        [gift1Example, gift2Example, lockedGiftExample]).gifts)) :=
  ⟨rfl, C10_mobile_display_filters_locked mobileStateExample
    [gift1Example, gift2Example, lockedGiftExample] (Or.inr rfl)⟩

/-- Helper: a steal attempt on a locked gift leaves the gift entirely
unchanged. -/
theorem applyGiftOp_steal_locked {g : Gift} (hl : g.is_locked = true) (o : Nat) :
    applyGiftOp g (GiftOp.steal o) = g := by
  simp [applyGiftOp, stealGiftCore, hl]

/-- Helper: every gift operation preserves the per-gift invariant. -/
theorem giftCoreInv_apply {g : Gift} (hg : GiftCoreInv g) (op : GiftOp) :
    GiftCoreInv (applyGiftOp g op) := by
  obtain ⟨h1, h2⟩ := hg
  cases op with
  | steal o =>
    cases hl : g.is_locked with
    | true =>
      rw [applyGiftOp_steal_locked hl]
      exact ⟨h1, h2⟩
    | false =>
      simp only [applyGiftOp, stealGiftCore, hl, Bool.false_eq_true, if_false]
      refine ⟨rfl, ?_⟩
      simp only [List.length_append, List.length_cons, List.length_nil]
      omega
  | reset =>
    exact ⟨by simp [applyGiftOp, resetGiftStealsCore],
      by simp [applyGiftOp, resetGiftStealsCore]⟩
  | rename n =>
    by_cases hv : coreValidName n
    · simp only [applyGiftOp, renameGiftCore, hv, if_true]
      exact ⟨h1, h2⟩
    · simp only [applyGiftOp, renameGiftCore, hv, Bool.false_eq_true, if_false]
      exact ⟨h1, h2⟩

/-- Helper: the per-gift invariant holds in every reachable gift state. -/
theorem giftReachable_inv {g : Gift} (h : GiftReachable g) : GiftCoreInv g := by
  induction h with
  | init id nm owner hv => exact ⟨rfl, Nat.le_refl 0⟩
  | step op h ih => exact giftCoreInv_apply ih op

/-- Helper: without the reset override, the steal counter equals the history
length in every reachable gift state. -/
theorem giftReachableNR_count {g : Gift} (h : GiftReachableNR g) :
    g.steal_count = g.steal_history.length := by
  induction h with
  | init id nm owner hv => rfl
  | step op hop h ih =>
    rename_i g'
    cases op with
    | steal o =>
      cases hl : g'.is_locked with
      | true => rw [applyGiftOp_steal_locked hl]; exact ih
      | false =>
        simp only [applyGiftOp, stealGiftCore, hl, Bool.false_eq_true, if_false]
        simp only [List.length_append, List.length_cons, List.length_nil]
        omega
    | reset => exact absurd rfl hop
    | rename n =>
      by_cases hv : coreValidName n
      · simp only [applyGiftOp, renameGiftCore, hv, if_true]
        exact ih
      · simp only [applyGiftOp, renameGiftCore, hv, Bool.false_eq_true, if_false]
        exact ih

/-- C1 counterexample: the state reached by creating the Lego Set, stealing
it once and then applying the admin `ResetGiftSteals` override is reachable,
yet its steal count (0) differs from its steal-history length (1) — the
claimed invariant `stealCount == len(stealHistory)` does not hold at every
reachable state. -/
theorem C1_reset_breaks_history_sync :
    GiftReachable legoStolenReset ∧
    legoStolenReset.steal_count = 0 ∧
    legoStolenReset.steal_history = [2] ∧
    legoStolenReset.steal_count ≠ legoStolenReset.steal_history.length := by
  refine ⟨?_, by decide, by decide, by decide⟩
  exact GiftReachable.step GiftOp.reset
    (GiftReachable.step (GiftOp.steal 2)
      (GiftReachable.init "lego" "Lego Set" (some 1) (by decide)))

/-- C1 amended: at every reachable gift state the locked flag is true exactly
when the steal count is at least 3, the steal count never exceeds the
steal-history length, and once locked a steal operation changes nothing
(count, owner, history or name); the full equality `stealCount ==
len(stealHistory)` holds at every state reachable without the admin
`ResetGiftSteals` override, which zeroes the counter while preserving the
history. -/
theorem C1_gift_invariants (g : Gift) :
    (GiftReachable g →
      g.is_locked = decide (3 ≤ g.steal_count) ∧
      g.steal_count ≤ g.steal_history.length ∧
      (g.is_locked = true → ∀ o, applyGiftOp g (GiftOp.steal o) = g)) ∧
    (GiftReachableNR g → g.steal_count = g.steal_history.length) := by
  constructor
  · intro h
    obtain ⟨h1, h2⟩ := giftReachable_inv h
    exact ⟨h1, h2, fun hl o => applyGiftOp_steal_locked hl o⟩
  · exact giftReachableNR_count

/-- C1 witness: the invariants evaluated on the thrice-stolen Lego Set of
scenario A, which is reachable both with and without resets. -/
theorem C1_gift_invariants_witness :
    GiftReachable legoStolen3 ∧ GiftReachableNR legoStolen3 ∧
    (legoStolen3.is_locked = decide (3 ≤ legoStolen3.steal_count) ∧
      legoStolen3.steal_count ≤ legoStolen3.steal_history.length ∧
      (legoStolen3.is_locked = true →
        ∀ o, applyGiftOp legoStolen3 (GiftOp.steal o) = legoStolen3)) ∧
    legoStolen3.steal_count = legoStolen3.steal_history.length := by
  have hr : GiftReachable legoStolen3 :=
    GiftReachable.step (GiftOp.steal 1)
      (GiftReachable.step (GiftOp.steal 3)
        (GiftReachable.step (GiftOp.steal 2)
          (GiftReachable.init "lego" "Lego Set" (some 1) (by decide))))
  have hnr : GiftReachableNR legoStolen3 :=
    GiftReachableNR.step (GiftOp.steal 1) (by decide)
      (GiftReachableNR.step (GiftOp.steal 3) (by decide)
        (GiftReachableNR.step (GiftOp.steal 2) (by decide)
          (GiftReachableNR.init "lego" "Lego Set" (some 1) (by decide))))
  exact ⟨hr, hnr, (C1_gift_invariants legoStolen3).1 hr,
    (C1_gift_invariants legoStolen3).2 hnr⟩

/-- Helper: a member of a list is found by `findIdx?` with a zero-based
equality predicate. -/
theorem findIdx?_isSome_of_mem {t : Nat} {l : List Nat} (h : t ∈ l) :
    ∃ i, l.findIdx? (fun x => x == t) = some i := by
  induction l with
  | nil => cases h
  | cons a l ih =>
    by_cases ha : (a == t) = true
    · exact ⟨0, by simp [List.findIdx?_cons, ha]⟩
    · have ht : t ∈ l := by
        rcases List.mem_cons.mp h with h1 | h1
        · exact absurd (beq_iff_eq.mpr h1.symm) (by simpa using ha)
        · exact h1
      obtain ⟨i, hi⟩ := ih ht
      exact ⟨i + 1, by simp [List.findIdx?_cons, ha, List.findIdx?_succ, hi]⟩

/-- C5: under the game-state invariants of spec §3, `PreviousTurn` is
permitted exactly when the phase is `completed` or when it is `active` with
the current turn at a positive index of the turn order; the front-end
`canGoToPreviousTurn` getter agrees with the core's decision; from
`completed` the operation restores the last entry of the turn order and the
`active` phase; while `active` at index i+1 it steps to the entry at index
i.  It is refused at the first entry while active and during registration. -/
theorem C5_previous_turn (gs : GameState) (total : Nat)
    (hreg : gs.gamePhase = GamePhase.registration → gs.currentTurn = none)
    (hcomp : gs.gamePhase = GamePhase.completed →
      gs.currentTurn = none ∧ gs.turnOrder ≠ [])
    (hmem : ∀ t, gs.currentTurn = some t → t ∈ gs.turnOrder) :
    (canGoToPreviousTurn (some (viewOfState gs total)) = true ↔
      (gs.gamePhase = GamePhase.completed ∨
        (gs.gamePhase = GamePhase.active ∧
          ∃ t i, gs.currentTurn = some t ∧
            gs.turnOrder.findIdx? (fun x => x == t) = some i ∧ 0 < i))) ∧
    (previousTurn gs).isOk = canGoToPreviousTurn (some (viewOfState gs total)) ∧
    (gs.gamePhase = GamePhase.completed →
      ∃ last, gs.turnOrder.getLast? = some last ∧
        previousTurn gs =
          Except.ok { gs with gamePhase := GamePhase.active, currentTurn := some last }) ∧
    (∀ t i, gs.gamePhase = GamePhase.active → gs.currentTurn = some t →
      gs.turnOrder.findIdx? (fun x => x == t) = some (i + 1) →
      previousTurn gs = Except.ok { gs with currentTurn := gs.turnOrder.get? i }) := by
  obtain ⟨T, L, P⟩ := gs
  dsimp only at hreg hcomp hmem ⊢
  cases P with
  | registration =>
    have hT : T = none := hreg rfl
    subst hT
    refine ⟨?_, ?_, ?_, ?_⟩
    · simp [canGoToPreviousTurn, viewOfState]
    · simp [previousTurn, canGoToPreviousTurn, viewOfState, Except.isOk, Except.toBool]
    · intro h; simp at h
    · intro t i h; simp at h
  | completed =>
    obtain ⟨hT, hne⟩ := hcomp rfl
    subst hT
    have hlen : L.length ≠ 0 := by
      have := List.length_pos.mpr hne; omega
    have hsome := List.getLast?_isSome.mpr hne
    obtain ⟨last, hlast⟩ : ∃ last, L.getLast? = some last := by
      cases hL : L.getLast? with
      | some x => exact ⟨x, rfl⟩
      | none => rw [hL] at hsome; simp at hsome
    refine ⟨?_, ?_, ?_, ?_⟩
    · simp [canGoToPreviousTurn, viewOfState, hlen]
    · simp [previousTurn, hlast, canGoToPreviousTurn, viewOfState, hlen,
        Except.isOk, Except.toBool]
    · intro _
      exact ⟨last, hlast, by simp [previousTurn, hlast]⟩
    · intro t i h; simp at h
  | active =>
    cases T with
    | none =>
      refine ⟨?_, ?_, ?_, ?_⟩
      · simp [canGoToPreviousTurn, viewOfState]
      · simp [previousTurn, canGoToPreviousTurn, viewOfState, Except.isOk, Except.toBool]
      · intro h; simp at h
      · intro t i _ hsome; simp at hsome
    | some t0 =>
      have hmem0 : t0 ∈ L := hmem t0 rfl
      have hne : L ≠ [] := List.ne_nil_of_mem hmem0
      have hlen : L.length ≠ 0 := by
        have := List.length_pos.mpr hne; omega
      obtain ⟨i0, hidx⟩ := findIdx?_isSome_of_mem hmem0
      have hcan : canGoToPreviousTurn
          (some (viewOfState ⟨some t0, L, GamePhase.active⟩ total)) = decide (0 < i0) := by
        simp [canGoToPreviousTurn, viewOfState, hlen, hidx]
      refine ⟨?_, ?_, ?_, ?_⟩
      · rw [hcan]
        simp only [decide_eq_true_eq]
        constructor
        · intro h
          exact Or.inr ⟨by trivial, t0, i0, rfl, hidx, h⟩
        · rintro (h | ⟨-, t, i, hts, hfind, hpos⟩)
          · simp at h
          · obtain rfl : t = t0 := (Option.some.inj hts).symm
            rw [hidx] at hfind
            obtain rfl : i0 = i := Option.some.inj hfind
            exact hpos
      · rw [hcan]
        cases i0 with
        | zero => simp [previousTurn, hidx, Except.isOk, Except.toBool]
        | succ j => simp [previousTurn, hidx, Except.isOk, Except.toBool]
      · intro h; simp at h
      · intro t i _ hsome hfind
        obtain rfl : t = t0 := (Option.some.inj hsome).symm
        simp [previousTurn, hfind]

/-- C5 witness: from the active state with turn holder 2 over order
[1, 2, 3] the operation is permitted and the front-end getter agrees; from
the completed state it restores the last entry (3) and the active phase. -/
theorem C5_previous_turn_witness :
    canGoToPreviousTurn (some (viewOfState activeTurnState 3)) = true ∧
    (previousTurn activeTurnState).isOk =
      canGoToPreviousTurn (some (viewOfState activeTurnState 3)) ∧
    (∃ last, completedTurnState.turnOrder.getLast? = some last ∧
      previousTurn completedTurnState =
        Except.ok { completedTurnState with
          gamePhase := GamePhase.active, currentTurn := some last }) := by
  have h1 := C5_previous_turn activeTurnState 3 (by decide) (by decide)
    (by intro t h
        obtain rfl : t = 2 := (Option.some.inj h).symm
        decide)
  have h2 := C5_previous_turn completedTurnState 3 (by decide) (by decide)
    (by intro t h
        simp [completedTurnState] at h)
  exact ⟨(h1.1).mpr (Or.inr ⟨rfl, 2, 1, rfl, by decide, by decide⟩),
    h1.2.1, h2.2.2.1 (by decide)⟩

/-- Helper: when the assigned ids are exactly 1..k, the Boolean "id i is
taken" test agrees with the interval membership test. -/
theorem anyId_eq (ps : List Participant) (k : Nat)
    (hids : ps.map (fun p => p.id) = List.range' 1 k) (i : Nat) :
    (ps.any (fun p => p.id == i)) = decide (1 ≤ i ∧ i < 1 + k) := by
  rw [Bool.eq_iff_iff, List.any_eq_true, decide_eq_true_eq]
  constructor
  · rintro ⟨p, hp, hbeq⟩
    have hpi : p.id = i := by simpa using hbeq
    have hmem : p.id ∈ ps.map (fun p => p.id) := List.mem_map_of_mem _ hp
    rw [hids] at hmem
    exact hpi ▸ List.mem_range'_1.mp hmem
  · intro hi
    have hmem : i ∈ List.range' 1 k := List.mem_range'_1.mpr hi
    rw [← hids] at hmem
    obtain ⟨p, hp, hpe⟩ := List.mem_map.mp hmem
    exact ⟨p, hp, by simp [hpe]⟩

/-- Helper: when the assigned ids are exactly 1..k with k < 100, the lowest
unused id in [1,100] is k+1. -/
theorem lowestUnusedId_range (ps : List Participant) (k : Nat) (hk : k < 100)
    (hids : ps.map (fun p => p.id) = List.range' 1 k) :
    lowestUnusedId ps = some (k + 1) := by
  unfold lowestUnusedId
  have hp : (fun i => !(ps.any (fun p => p.id == i))) =
      (fun i => !(decide (1 ≤ i ∧ i < 1 + k))) := by
    funext i
    rw [anyId_eq ps k hids i]
  rw [hp]
  have hsplit : List.range' 1 100 = List.range' 1 k ++ List.range' (1 + k) (100 - k) := by
    have h2 := List.range'_append 1 k (100 - k) 1
    simp only [one_mul] at h2
    rw [show 100 - k + k = 100 from by omega] at h2
    exact h2.symm
  rw [hsplit, List.find?_append]
  have hnone : (List.range' 1 k).find? (fun i => !(decide (1 ≤ i ∧ i < 1 + k))) = none := by
    rw [List.find?_eq_none]
    intro x hx
    have hb := List.mem_range'_1.mp hx
    simp [hb.1, hb.2]
  rw [hnone, Option.none_or]
  obtain ⟨m, hm⟩ : ∃ m, 100 - k = m + 1 := ⟨100 - k - 1, by omega⟩
  rw [hm, List.range'_succ]
  simp only [List.find?_cons]
  rw [show (!(decide (1 ≤ 1 + k ∧ 1 + k < 1 + k))) = true from by simp]
  simp [Nat.add_comm]

/-- Helper: a registration against a store holding exactly ids 1..k (k < 100)
with a non-empty trimmed name appends the participant with id k+1. -/
theorem registerParticipant_step (ps : List Participant) (k : Nat) (nm : String)
    (hk : k < 100) (hids : ps.map (fun p => p.id) = List.range' 1 k)
    (hnm : (trimName nm).length ≠ 0) :
    registerParticipant ps nm =
      (ps ++ [⟨k + 1, nm, ""⟩], Except.ok ⟨k + 1, nm, ""⟩) := by
  have hlen : ps.length = k := by
    have := congrArg List.length hids
    simpa using this
  have hcap : ¬ (100 ≤ ps.length) := by omega
  unfold registerParticipant
  rw [if_neg hcap, if_neg (by simpa using hnm), lowestUnusedId_range ps k hk hids]

/-- Helper: successive registrations against a store holding ids 1..k assign
the ids k+1, k+2, ... in order. -/
theorem registerAll_ids (names : List String) : ∀ (ps : List Participant) (k : Nat),
    ps.map (fun p => p.id) = List.range' 1 k → k + names.length ≤ 100 →
    (∀ n ∈ names, (trimName n).length ≠ 0) →
    ∃ ps', registerAll ps names = some ps' ∧
      ps'.map (fun p => p.id) = List.range' 1 (k + names.length) := by
  induction names with
  | nil =>
    intro ps k hids _ _
    exact ⟨ps, rfl, by simpa using hids⟩
  | cons nm rest ih =>
    intro ps k hids hcap hval
    have hk : k < 100 := by
      have := hcap
      simp only [List.length_cons] at this
      omega
    have hstep := registerParticipant_step ps k nm hk hids
      (hval nm (List.mem_cons_self nm rest))
    have hids' : (ps ++ [(⟨k + 1, nm, ""⟩ : Participant)]).map (fun p => p.id) =
        List.range' 1 (k + 1) := by
      rw [List.map_append, hids]
      have := @List.range'_concat 1 1 k
      simp only [one_mul] at this
      rw [this]
      simp [Nat.add_comm]
    obtain ⟨ps', h1, h2⟩ := ih (ps ++ [(⟨k + 1, nm, ""⟩ : Participant)]) (k + 1) hids'
      (by simp only [List.length_cons] at hcap; omega)
      (fun n hn => hval n (List.mem_cons_of_mem nm hn))
    refine ⟨ps', ?_, ?_⟩
    · rw [show registerAll ps (nm :: rest) =
        (match registerParticipant ps nm with
          | (ps', .ok _) => registerAll ps' rest
          | (_, .error _) => none) from rfl, hstep]
      exact h1
    · rw [h2]
      congr 1
      simp only [List.length_cons]
      omega

/-- C8: starting from an empty store, any 100 valid registrations succeed
and assign exactly the ids 1..100 (in particular pairwise distinct ids drawn
from [1,100]); any registration attempted while 100 participants exist fails
with a `ConflictError` and leaves the store unchanged; the front-end
capacity guard mirrors the same bound and blocks submission at capacity. -/
theorem C8_registration_capacity (names : List String)
    (hlen : names.length = 100)
    (hval : ∀ n ∈ names, (trimName n).length ≠ 0) :
    (∃ ps, registerAll [] names = some ps ∧
      ps.map (fun p => p.id) = List.range' 1 100 ∧
      (ps.map (fun p => p.id)).Nodup ∧
      (∀ i ∈ ps.map (fun p => p.id), 1 ≤ i ∧ i ≤ 100)) ∧
    (∀ (ps : List Participant) (nm : String), ps.length = 100 →
      registerParticipant ps nm =
        (ps, Except.error (ApiError.ConflictError "Registration limit reached"))) ∧
    (∀ count, isAtCapacity count = decide (100 ≤ count)) ∧
    (∀ count, 100 ≤ count → onSubmitProceeds false false count = false) := by
  refine ⟨?_, ?_, fun _ => rfl, ?_⟩
  · obtain ⟨ps, h1, h2⟩ := registerAll_ids names [] 0 (by simp) (by omega) hval
    rw [hlen] at h2
    simp only [Nat.zero_add] at h2
    refine ⟨ps, h1, h2, ?_, ?_⟩
    · rw [h2]
      exact List.nodup_range' 1 100
    · intro i hi
      rw [h2] at hi
      have := List.mem_range'_1.mp hi
      omega
  · intro ps nm hps
    unfold registerParticipant
    rw [if_pos (by omega)]
  · intro count hcount
    simp [onSubmitProceeds, isAtCapacity, hcount]

/-- C8 witness: one hundred "Alice" registrations from the empty store
succeed with ids exactly 1..100, and a registration against a full store of
100 participants is refused with the store unchanged. -/
theorem C8_registration_capacity_witness :
    (List.replicate 100 "Alice").length = 100 ∧
    (∃ ps, registerAll [] (List.replicate 100 "Alice") = some ps ∧
      ps.map (fun p => p.id) = List.range' 1 100 ∧
      (ps.map (fun p => p.id)).Nodup ∧
      (∀ i ∈ ps.map (fun p => p.id), 1 ≤ i ∧ i ≤ 100)) ∧
    registerParticipant ((List.range' 1 100).map (fun i => (⟨i, "Bob", ""⟩ : Participant)))
        "Carol" =
      ((List.range' 1 100).map (fun i => (⟨i, "Bob", ""⟩ : Participant)),
        Except.error (ApiError.ConflictError "Registration limit reached")) := by
  have h := C8_registration_capacity (List.replicate 100 "Alice") (by simp)
    (by intro n hn
        rw [List.eq_of_mem_replicate hn]
        decide)
  exact ⟨by simp, h.1, h.2.1 _ _ (by simp)⟩

end SecretSanta
